import Mathlib

/-!
Shallow embedding of the bridge-keeper runtime: the Ollama streaming chat
transport (`basicChat`), the tool-dispatch loop (`QueryWithTools`), the
backend lifecycle manager (`Initialize` / `Shutdown`), the git tool handler
(`ExecuteGitCommand`), and the Gemini cloud adapter's git branch
(`AnalyzeWithGit`).

Go's `(value, error)` multiple returns are embedded as `α × Option ε` pairs
(`none` = nil error).  External effects (the HTTP backend, process spawning,
the git subprocess, the cloud session) are passed in as oracle functions, and
instrumented variants additionally return the trace of calls made to those
oracles so that invocation counts and argument histories can be stated.
-/

namespace BridgeKeeper

/-- Go `any` values as they appear in decoded JSON argument maps. -/
inductive GoAny where
  | str : String → GoAny
  | num : Int → GoAny
  | boolean : Bool → GoAny
  | list : List GoAny → GoAny
  | null : GoAny

/-- `map[string]any` argument mappings, embedded as association lists. -/
abbrev Args := List (String × GoAny)

/-- The `toolCallFunction` struct: `{Name string, Arguments map[string]any}`. -/
structure toolCallFunction where
  name : String
  arguments : Args

/-- The `toolCall` struct wrapping the nested JSON form. -/
structure toolCall where
  function : toolCallFunction

/-- The `message` struct: `{Role, Content, ToolCalls}`. -/
structure message where
  role : String
  content : String
  toolCalls : List toolCall

/-- Go's zero value `message{}`. -/
def message.empty : message := ⟨"", "", []⟩

/-- One decoded stream chunk, the `chatResponse` struct:
`{Message message, Done bool, Error string}`. -/
structure chatResponse where
  message : message
  done : Bool
  error : String

/-- `ToolProperty` (the source misspells the description field). -/
structure ToolProperty where
  type : String
  descrption : String

/-- `toolParameters`: the `properties` map is embedded as an association
list. -/
structure toolParameters where
  type : String
  properties : List (String × ToolProperty)
  required : List String

/-- `toolFunction`. -/
structure toolFunction where
  name : String
  description : String
  parameters : toolParameters

/-- The outbound `tool` schema struct. -/
structure tool where
  type : String
  function : toolFunction

/-- A tool handler: Go `func(map[string]any) (string, error)`. -/
abbrev Handler := Args → String × Option String

/-- `ToolDef` bundling schema and handler. -/
structure ToolDef where
  name : String
  description : String
  parameters : List (String × ToolProperty)
  required : List String
  handler : Handler

/-- `ToolDef.ollamaJsonFormat`: converts a `ToolDef` to the outbound schema. -/
def ToolDef.ollamaJsonFormat (td : ToolDef) : tool :=
  { type := "function"
    function :=
      { name := td.name
        description := td.description
        parameters :=
          { type := "object"
            properties := td.parameters
            required := td.required } } }

/-- Errors raised by the streaming transport. -/
inductive TransportError where
  | chunkError (msg : String)     -- "Model response was malformed %s"
  | requestError (msg : String)   -- encode/POST/status/scanner failures

/-- Embedding of `strings.TrimSpace`. -/
def trimSpace (s : String) : String := s.trim

/-- The chunk-processing loop of `basicChat`: iterates over the decoded
chunks carrying the content buffer (`contentBuffer`) and the accumulated
`fullMessage`.  Each chunk is checked for a non-empty error field first;
then its content is appended, a non-empty tool-call list replaces the
captured one, the role is overwritten, and a set `done` flag stops
reading. -/
def basicChatLoop : List chatResponse → String → message → message × Option TransportError
  | [], buf, acc => ({ acc with content := buf }, none)
  | c :: rest, buf, acc =>
    if c.error ≠ "" then
      (message.empty, some (TransportError.chunkError c.error))
    else
      let buf' := buf ++ c.message.content
      let acc' :=
        if c.message.toolCalls.isEmpty then acc
        else { acc with toolCalls := c.message.toolCalls }
      let acc'' := { acc' with role := c.message.role }
      if c.done then ({ acc'' with content := buf' }, none)
      else basicChatLoop rest buf' acc''

/-- `basicChat` applied to an already-decoded chunk stream: accumulates the
full message exactly as the Go scanner loop does. -/
def basicChat (chunks : List chatResponse) : message × Option TransportError :=
  basicChatLoop chunks "" message.empty

/-- The prefix of the stream the loop actually processes: everything up to
and including the first chunk with the completion flag set, or the whole
stream when none sets it. -/
def chunksUpToDone : List chatResponse → List chatResponse
  | [] => []
  | c :: rest => if c.done then [c] else c :: chunksUpToDone rest

/-- Ordered concatenation of the content fields of a chunk list. -/
def concatContents : List chatResponse → String
  | [] => ""
  | c :: rest => c.message.content ++ concatContents rest

/-- The captured tool-call list after a chunk list: a chunk with a non-empty
tool-call list replaces the captured one, an empty list leaves it
unchanged. -/
def capturedToolCalls (cs : List chatResponse) : List toolCall :=
  cs.foldl (fun acc c => if c.message.toolCalls.isEmpty then acc else c.message.toolCalls) []

/-- The backend stream oracle: for a request (message history, tool schema)
it yields the decoded chunk stream the server answers with.  `basicChat`
then folds that stream exactly as the Go code does. -/
abbrev StreamFn := List message → List tool → List chatResponse

/-- Errors surfaced by `Query`/`QueryWithTools`, mirroring the `fmt.Errorf`
sites of the source. -/
inductive QueryError where
  | notInitialized                                  -- "Ollama not initialized"
  | setupContext                                    -- "Failed to set up context"
  | unknownTool (name : String)                     -- "Tool %q unknown"
  | toolExecution (name : String) (cause : String)  -- "Tool %q returned bad %w"
  | transport (e : TransportError)                  -- propagated from chatStream

/-- `chatStream`: runs `basicChat` on the reply stream and returns the
whitespace-trimmed accumulated content, or the transport error. -/
def chatStream (stream : StreamFn) (messages : List message) (tools : List tool) :
    String × Option QueryError :=
  match basicChat (stream messages tools) with
  | (_, some e) => ("", some (QueryError.transport e))
  | (m, none) => (trimSpace m.content, none)

/-- The `handlers` map built by `QueryWithTools`' registration loop: Go map
insertion in list order, so a later definition under the same name shadows
an earlier one. -/
def lookupHandler (tools : List ToolDef) (n : String) : Option ToolDef :=
  tools.foldl (fun acc td => if td.name == n then some td else acc) none

/-- The user prompt as the initial history message. -/
def userMsg (prompt : String) : message := ⟨"user", prompt, []⟩

/-- The tool-role message carrying a handler result. -/
def toolMsg (result : String) : message := ⟨"tool", result, []⟩

/-- Trace of the external calls one `QueryWithTools` run makes: every handler
invocation (tool name, arguments) and every backend chat request (history,
tool schema) in order. -/
structure QueryTrace where
  handlerCalls : List (String × Args)
  chatCalls : List (List message × List tool)

/-- `QueryWithTools`, instrumented: identical control flow to the source,
additionally returning the trace of handler and backend invocations.
Steps: refuse when uninitialized; build the schema list and handler map;
send prompt plus tools; return trimmed text when no tool call; act on the
first tool call only; unknown name is terminal; handler failure is terminal
with no history appended; on success append the assistant message and a
tool message and re-send without tools via `chatStream`. -/
def QueryWithToolsT (stream : StreamFn) (baseURL : String) (userPrompt : String)
    (tools : List ToolDef) : (String × Option QueryError) × QueryTrace :=
  if baseURL = "" then (("", some QueryError.notInitialized), ⟨[], []⟩)
  else
    let toolset := tools.map ToolDef.ollamaJsonFormat
    let messages := [userMsg userPrompt]
    match basicChat (stream messages toolset) with
    | (_, some _) => (("", some QueryError.setupContext), ⟨[], [(messages, toolset)]⟩)
    | (llmResponse, none) =>
      match llmResponse.toolCalls with
      | [] =>
        ((trimSpace llmResponse.content, none), ⟨[], [(messages, toolset)]⟩)
      | tcall :: _ =>
        match lookupHandler tools tcall.function.name with
        | none =>
          (("", some (QueryError.unknownTool tcall.function.name)),
           ⟨[], [(messages, toolset)]⟩)
        | some td =>
          match td.handler tcall.function.arguments with
          | (_, some e) =>
            (("", some (QueryError.toolExecution tcall.function.name e)),
             ⟨[(tcall.function.name, tcall.function.arguments)], [(messages, toolset)]⟩)
          | (result, none) =>
            let messages' := messages ++ [llmResponse, toolMsg result]
            (chatStream stream messages' [],
             ⟨[(tcall.function.name, tcall.function.arguments)],
              [(messages, toolset), (messages', [])]⟩)

/-- `QueryWithTools` as the source exposes it: the result component of the
instrumented run. -/
def QueryWithTools (stream : StreamFn) (baseURL : String) (userPrompt : String)
    (tools : List ToolDef) : String × Option QueryError :=
  (QueryWithToolsT stream baseURL userPrompt tools).1

/-- The package-level state of the lifecycle manager: the `ollamaProc`
subprocess handle (a pid when spawned by this manager) and `baseURL`. -/
structure OllamaState where
  ollamaProc : Option Nat
  baseURL : String

/-- What the external world does during one `Initialize` run: whether the
initial health probe already succeeds, the pid `cmd.Start()` yields (`none`
= spawn failure), and whether the polled probe turns healthy before the
15-second deadline. -/
structure InitWorld where
  alreadyHealthy : Bool
  spawnedPid : Option Nat
  becomesHealthy : Bool

/-- Outcome of one `Initialize` run: the final state, the pids spawned, the
pids killed during the run, and the returned error (`none` = success). -/
structure InitOutcome where
  state : OllamaState
  spawned : List Nat
  killed : List Nat
  err : Option String

/-- `Initialize(port)`: sets `baseURL`; if the health probe already
succeeds it returns at once without spawning; otherwise it spawns the
backend, records ownership in `ollamaProc`, and polls until healthy or the
deadline, killing the spawned process and clearing the handle on timeout. -/
def Initialize (s : OllamaState) (port : Nat) (w : InitWorld) : InitOutcome :=
  let s₁ : OllamaState := { s with baseURL := "http://localhost:" ++ toString port }
  if w.alreadyHealthy then
    { state := s₁, spawned := [], killed := [], err := none }
  else
    match w.spawnedPid with
    | none =>
      { state := s₁, spawned := [], killed := [], err := some "Failed to start up Ollama: spawn failure" }
    | some pid =>
      if w.becomesHealthy then
        { state := { s₁ with ollamaProc := some pid }, spawned := [pid], killed := [], err := none }
      else
        { state := { s₁ with ollamaProc := none }, spawned := [pid], killed := [pid],
          err := some "Failed to start up Ollama: timeout (15s)" }

/-- `Shutdown()`: no-op when no process was spawned by this manager;
otherwise kill (the `killOk` oracle says whether the signal succeeds), wait,
and clear the handle.  Returns (new state, pids killed, error). -/
def Shutdown (s : OllamaState) (killOk : Bool) : OllamaState × List Nat × Option String :=
  match s.ollamaProc with
  | none => (s, [], none)
  | some pid =>
    if killOk then ({ s with ollamaProc := none }, [pid], none)
    else (s, [], some "Failed to kill Ollama: kill failure")

/-- Result of running the git subprocess: `CombinedOutput` text and the
execution error, if any. -/
structure ExecResult where
  out : String
  err : Option String

/-- `ExecuteGitCommand(repoPath, args)`: runs `git` with the arguments
unmodified in the given working directory (the `runGit` oracle), returns
the combined output verbatim on success, and folds an execution failure
into a diagnostic string instead of signalling an error. -/
def ExecuteGitCommand (repoPath : String) (args : List String)
    (runGit : String → List String → ExecResult) : String :=
  let r := runGit repoPath args
  match r.err with
  | some e => "Error executing command: " ++ e ++ "\nOutput: " ++ r.out
  | none => r.out

/-- A genai `FunctionCall`: name and `map[string]any` arguments. -/
structure FunctionCall where
  name : String
  args : List (String × GoAny)

/-- A genai content `Part`: text plus an optional function call. -/
structure Part where
  text : String
  functionCall : Option FunctionCall

/-- A genai `Content` holding the parts list. -/
structure Content where
  parts : List Part

/-- A genai `Candidate`. -/
structure Candidate where
  content : Content

/-- A genai `GenerateContentResponse`: its candidates and the value its
`Text()` method renders. -/
structure GenerateContentResponse where
  candidates : List Candidate
  text : String

/-- The string-collecting loop of `AnalyzeWithGit`: keeps the `string`
elements of an `[]any` value in order and silently drops the rest. -/
def stringElems : List GoAny → List String
  | [] => []
  | GoAny.str s :: rest => s :: stringElems rest
  | _ :: rest => stringElems rest

/-- Spec-side view of a `GoAny` as a string element. -/
def GoAny.asString : GoAny → Option String
  | GoAny.str s => some s
  | _ => none

/-- `AnalyzeWithGit`, instrumented: the function-calling branch of the cloud
adapter.  `resp` is the model's reply to the prompt, `runGit` the git
subprocess, `send2` the session's `SendMessage` for the function response
(`(reply, error)` pair).  Returns the `(text, error)` result together with
the argument lists the git executor was invoked with. -/
def AnalyzeWithGitT (resp : GenerateContentResponse) (defaultRepoPath : String)
    (runGit : String → List String → ExecResult)
    (send2 : String → GenerateContentResponse × Option String) :
    (String × Option String) × List (List String) :=
  match resp.candidates with
  | cand :: _ =>
    match cand.content.parts with
    | part :: _ =>
      match part.functionCall with
      | some funcCall =>
        if funcCall.name = "execute_git_command" then
          match funcCall.args.lookup "args" with
          | some (GoAny.list argsAny) =>
            let gitArgs := stringElems argsAny
            let gitOutput := ExecuteGitCommand defaultRepoPath gitArgs runGit
            match send2 gitOutput with
            | (_, some e) => (("", some e), [gitArgs])
            | (finalResp, none) => ((finalResp.text, none), [gitArgs])
          | _ => (("", some "model failed to provide git arguments"), [])
        else ((resp.text, none), [])
      | none => ((resp.text, none), [])
    | [] => ((resp.text, none), [])
  | [] => ((resp.text, none), [])

/-- `AnalyzeWithGit` as exposed: the result component of the instrumented
run. -/
def AnalyzeWithGit (resp : GenerateContentResponse) (defaultRepoPath : String)
    (runGit : String → List String → ExecResult)
    (send2 : String → GenerateContentResponse × Option String) :
    String × Option String :=
  (AnalyzeWithGitT resp defaultRepoPath runGit send2).1

/-! Concrete inputs used by the witness theorems. -/

/-- A well-formed two-chunk stream followed by a chunk past the terminal
one. -/
def wChunksOk : List chatResponse :=
  [⟨⟨"assistant", "Hel", []⟩, false, ""⟩,
   ⟨⟨"assistant", "lo", []⟩, true, ""⟩,
   ⟨⟨"assistant", "XX", []⟩, false, ""⟩]

/-- A stream whose second chunk carries a non-empty error field. -/
def wChunksErr : List chatResponse :=
  [⟨⟨"assistant", "Hel", []⟩, false, ""⟩,
   ⟨⟨"", "", []⟩, false, "boom"⟩]

/-- A stream where two chunks carry tool-call lists before the terminal
chunk; the later one must win. -/
def wChunksCalls : List chatResponse :=
  [⟨⟨"assistant", "x", [⟨⟨"t1", []⟩⟩]⟩, false, ""⟩,
   ⟨⟨"assistant", "y", [⟨⟨"t2", []⟩⟩]⟩, false, ""⟩,
   ⟨⟨"assistant", "z", []⟩, true, ""⟩,
   ⟨⟨"assistant", "w", [⟨⟨"t3", []⟩⟩]⟩, false, ""⟩]

/-- A registered tool whose handler succeeds. -/
def goVersionTool : ToolDef :=
  { name := "go_version"
    description := "get the installed Go version"
    parameters := []
    required := []
    handler := fun _ => ("go version go1.25.7 linux/amd64", none) }

/-- A registered tool whose handler fails. -/
def failingTool : ToolDef :=
  { name := "go_version"
    description := "get the installed Go version"
    parameters := []
    required := []
    handler := fun _ => ("", some "exec: \x22go\x22: executable file not found") }

/-- A backend that answers the one-message initial history with a
`go_version` tool call and any longer (follow-up) history with plain
text. -/
def streamToolCall : StreamFn := fun msgs _ =>
  if msgs.length == 1 then
    [⟨⟨"assistant", "", [⟨⟨"go_version", []⟩⟩]⟩, true, ""⟩]
  else
    [⟨⟨"assistant", "  The Go version is go1.25.7.  ", []⟩, true, ""⟩]

/-- A backend that always answers with plain text and no tool calls. -/
def streamPlain : StreamFn := fun _ _ =>
  [⟨⟨"assistant", "  Hello there  ", []⟩, true, ""⟩]

/-- A backend that requests a tool the registry does not know. -/
def streamUnknown : StreamFn := fun _ _ =>
  [⟨⟨"assistant", "", [⟨⟨"missing_tool", []⟩⟩]⟩, true, ""⟩]

/-- A cloud-model function call mixing string and non-string arguments. -/
def wGitCall : FunctionCall :=
  ⟨"execute_git_command",
   [("args", GoAny.list [GoAny.str "log", GoAny.num 3, GoAny.str "-n"])]⟩

/-- The content part carrying `wGitCall`. -/
def wGitPart : Part := ⟨"", some wGitCall⟩

/-- A cloud-model reply whose first content part is `wGitPart`. -/
def wGitResp : GenerateContentResponse := ⟨[⟨⟨[wGitPart]⟩⟩], "done"⟩

end BridgeKeeper

namespace BridgeKeeper

/-! Helper lemmas about the chunk-processing loop. -/

theorem basicChatLoop_content (chunks : List chatResponse) :
    ∀ buf acc m, basicChatLoop chunks buf acc = (m, none) →
      m.content = buf ++ concatContents (chunksUpToDone chunks) := by
  induction chunks with
  | nil =>
    intro buf acc m h
    simp only [basicChatLoop, Prod.mk.injEq] at h
    obtain ⟨h1, -⟩ := h
    rw [← h1]
    simp [chunksUpToDone, concatContents]
  | cons c rest ih =>
    intro buf acc m h
    simp only [basicChatLoop] at h
    split at h
    · simp at h
    · split at h
      · next hd =>
        simp only [Prod.mk.injEq] at h
        obtain ⟨h1, -⟩ := h
        rw [← h1]
        simp [chunksUpToDone, hd, concatContents]
      · next hd =>
        have h2 := ih (buf ++ c.message.content) _ m h
        rw [h2]
        simp [chunksUpToDone, hd, concatContents, String.append_assoc]

theorem basicChatLoop_toolCalls (chunks : List chatResponse) :
    ∀ buf acc m, basicChatLoop chunks buf acc = (m, none) →
      m.toolCalls = (chunksUpToDone chunks).foldl
        (fun a c => if c.message.toolCalls.isEmpty then a else c.message.toolCalls)
        acc.toolCalls := by
  induction chunks with
  | nil =>
    intro buf acc m h
    simp only [basicChatLoop, Prod.mk.injEq] at h
    obtain ⟨h1, -⟩ := h
    rw [← h1]
    simp [chunksUpToDone]
  | cons c rest ih =>
    intro buf acc m h
    simp only [basicChatLoop] at h
    split at h
    · simp at h
    · split at h
      · next hd =>
        simp only [Prod.mk.injEq] at h
        obtain ⟨h1, -⟩ := h
        rw [← h1]
        by_cases ht : c.message.toolCalls.isEmpty
        · simp [chunksUpToDone, hd, ht]
        · simp [chunksUpToDone, hd, ht]
      · next hd =>
        have h2 := ih _ _ m h
        rw [h2]
        by_cases ht : c.message.toolCalls.isEmpty
        · simp [chunksUpToDone, hd, ht]
        · simp [chunksUpToDone, hd, ht]

theorem basicChatLoop_error (chunks : List chatResponse) :
    ∀ buf acc, (∃ c ∈ chunksUpToDone chunks, c.error ≠ "") →
      ∃ e, basicChatLoop chunks buf acc =
        (message.empty, some (TransportError.chunkError e)) := by
  induction chunks with
  | nil =>
    intro buf acc h
    simp [chunksUpToDone] at h
  | cons c rest ih =>
    intro buf acc h
    by_cases he : c.error = ""
    · have he' : ¬ c.error ≠ "" := by simpa using he
      by_cases hd : c.done = true
      · exfalso
        simp [chunksUpToDone, hd] at h
        exact h he
      · obtain ⟨c', hc', herr⟩ := h
        have hmem : c' ∈ chunksUpToDone rest := by
          simp only [chunksUpToDone, if_neg hd, List.mem_cons] at hc'
          rcases hc' with rfl | hmem
          · exact absurd he herr
          · exact hmem
        simp only [basicChatLoop, if_neg he', if_neg hd]
        exact ih _ _ ⟨c', hmem, herr⟩
    · exact ⟨c.error, by simp only [basicChatLoop, if_pos he]⟩

/-- **C2**: for every successfully decoded stream, the content of the
message returned by `basicChat` equals the ordered concatenation of the
content fields of every decoded chunk up to and including the first chunk
whose `done` flag is set, or up to end of stream if no chunk sets it. -/
theorem C2_content_concatenation (chunks : List chatResponse) (m : message)
    (h : basicChat chunks = (m, none)) :
    m.content = concatContents (chunksUpToDone chunks) := by
  have h2 := basicChatLoop_content chunks "" message.empty m h
  rwa [String.empty_append] at h2

/-- Witness for C2 on a concrete three-chunk stream (the chunk after the
terminal one is ignored). -/
theorem C2_content_concatenation_witness :
    (⟨"assistant", "Hello", []⟩ : message).content =
      concatContents (chunksUpToDone wChunksOk) :=
  C2_content_concatenation wChunksOk _ rfl

/-- **C4**: any decoded chunk carrying a non-empty error field makes
`basicChat` return a `TransportError` together with the zero-value message:
the content accumulated from earlier chunks is discarded. -/
theorem C4_error_chunk_discards (chunks : List chatResponse)
    (h : ∃ c ∈ chunksUpToDone chunks, c.error ≠ "") :
    ∃ e, basicChat chunks = (message.empty, some (TransportError.chunkError e)) :=
  basicChatLoop_error chunks "" message.empty h

/-- Witness for C4 on a concrete stream whose second chunk errors after
content was already buffered. -/
theorem C4_error_chunk_discards_witness :
    ∃ e, basicChat wChunksErr = (message.empty, some (TransportError.chunkError e)) :=
  C4_error_chunk_discards wChunksErr
    ⟨⟨⟨"", "", []⟩, false, "boom"⟩, by simp [wChunksErr, chunksUpToDone], by decide⟩

/-- **C7**: the tool-call list of the message returned by `basicChat` equals
the tool-call list of the last processed chunk that carried a non-empty
list — each such chunk replaces the captured list, chunks with empty lists
leave it unchanged, and chunks past the terminal one are ignored. -/
theorem C7_last_toolcalls_win (chunks : List chatResponse) (m : message)
    (h : basicChat chunks = (m, none)) :
    m.toolCalls = capturedToolCalls (chunksUpToDone chunks) := by
  have h2 := basicChatLoop_toolCalls chunks "" message.empty m h
  simpa [capturedToolCalls, message.empty] using h2

/-- Witness for C7 on a concrete stream with two tool-call chunks before
the terminal chunk and one after it. -/
theorem C7_last_toolcalls_win_witness :
    (⟨"assistant", "xyz", [⟨⟨"t2", []⟩⟩]⟩ : message).toolCalls =
      capturedToolCalls (chunksUpToDone wChunksCalls) :=
  C7_last_toolcalls_win wChunksCalls _ rfl

/-! Helper lemmas about the handler registry. -/

theorem lookupHandler_foldl (n : String) (tools : List ToolDef) :
    ∀ acc, (∀ td ∈ tools, td.name ≠ n) →
      tools.foldl (fun acc td => if td.name == n then some td else acc) acc = acc := by
  induction tools with
  | nil => intro acc _; rfl
  | cons td rest ih =>
    intro acc h
    have hne : ¬ ((td.name == n) = true) := by
      simp only [beq_iff_eq]
      exact h td (List.mem_cons_self td rest)
    simp only [List.foldl, if_neg hne]
    exact ih acc fun td' h' => h td' (List.mem_cons_of_mem td h')

theorem lookupHandler_eq_none (tools : List ToolDef) (n : String)
    (h : ∀ td ∈ tools, td.name ≠ n) : lookupHandler tools n = none :=
  lookupHandler_foldl n tools none h

/-- **C6**: when the initial reply carries an empty tool-call list,
`QueryWithTools` returns exactly that reply's whitespace-trimmed text,
invokes zero handlers, and makes no further backend call. -/
theorem C6_no_tool_call (stream : StreamFn) (baseURL userPrompt : String)
    (tools : List ToolDef) (reply : message)
    (hinit : baseURL ≠ "")
    (hreply : basicChat (stream [userMsg userPrompt] (tools.map ToolDef.ollamaJsonFormat)) =
      (reply, none))
    (hempty : reply.toolCalls = []) :
    QueryWithToolsT stream baseURL userPrompt tools =
      ((trimSpace reply.content, none),
       ⟨[], [([userMsg userPrompt], tools.map ToolDef.ollamaJsonFormat)]⟩) := by
  simp only [QueryWithToolsT, if_neg hinit, hreply, hempty]

/-- Witness for C6: a plain-text backend reply against the `go_version`
registry. -/
theorem C6_no_tool_call_witness :
    QueryWithToolsT streamPlain "http://localhost:11434" "hello" [goVersionTool] =
      ((trimSpace "  Hello there  ", none),
       ⟨[], [([userMsg "hello"], [goVersionTool].map ToolDef.ollamaJsonFormat)]⟩) :=
  C6_no_tool_call streamPlain "http://localhost:11434" "hello" [goVersionTool]
    ⟨"assistant", "  Hello there  ", []⟩ (by decide) rfl rfl

/-- **C5**: when the initial reply's first tool call names a function absent
from the registered tool set, `QueryWithTools` returns an unknown-tool error
naming it and invokes no handler at all. -/
theorem C5_unknown_tool (stream : StreamFn) (baseURL userPrompt : String)
    (tools : List ToolDef) (reply : message) (tcall : toolCall) (rest : List toolCall)
    (hinit : baseURL ≠ "")
    (hreply : basicChat (stream [userMsg userPrompt] (tools.map ToolDef.ollamaJsonFormat)) =
      (reply, none))
    (hfirst : reply.toolCalls = tcall :: rest)
    (habsent : ∀ td ∈ tools, td.name ≠ tcall.function.name) :
    QueryWithToolsT stream baseURL userPrompt tools =
      (("", some (QueryError.unknownTool tcall.function.name)),
       ⟨[], [([userMsg userPrompt], tools.map ToolDef.ollamaJsonFormat)]⟩) := by
  have hlk := lookupHandler_eq_none tools tcall.function.name habsent
  simp only [QueryWithToolsT, if_neg hinit, hreply, hfirst, hlk]

/-- Witness for C5: the backend calls `missing_tool`, which the registry
does not hold. -/
theorem C5_unknown_tool_witness :
    QueryWithToolsT streamUnknown "http://localhost:11434" "hello" [goVersionTool] =
      (("", some (QueryError.unknownTool "missing_tool")),
       ⟨[], [([userMsg "hello"], [goVersionTool].map ToolDef.ollamaJsonFormat)]⟩) :=
  C5_unknown_tool streamUnknown "http://localhost:11434" "hello" [goVersionTool]
    ⟨"assistant", "", [⟨⟨"missing_tool", []⟩⟩]⟩ ⟨⟨"missing_tool", []⟩⟩ []
    (by decide) rfl rfl
    (by intro td htd; rcases List.mem_singleton.mp htd with rfl; decide)

/-- **C3**: when the looked-up handler fails, `QueryWithTools` returns a
tool-execution error naming the tool and wrapping the handler's error as its
cause, appends no messages to the conversation history, and makes no
follow-up transport call. -/
theorem C3_handler_failure (stream : StreamFn) (baseURL userPrompt : String)
    (tools : List ToolDef) (reply : message) (tcall : toolCall) (rest : List toolCall)
    (td : ToolDef) (res e : String)
    (hinit : baseURL ≠ "")
    (hreply : basicChat (stream [userMsg userPrompt] (tools.map ToolDef.ollamaJsonFormat)) =
      (reply, none))
    (hfirst : reply.toolCalls = tcall :: rest)
    (hlookup : lookupHandler tools tcall.function.name = some td)
    (hhandler : td.handler tcall.function.arguments = (res, some e)) :
    QueryWithToolsT stream baseURL userPrompt tools =
      (("", some (QueryError.toolExecution tcall.function.name e)),
       ⟨[(tcall.function.name, tcall.function.arguments)],
        [([userMsg userPrompt], tools.map ToolDef.ollamaJsonFormat)]⟩) := by
  simp only [QueryWithToolsT, if_neg hinit, hreply, hfirst, hlookup, hhandler]

/-- Witness for C3: a `go_version` call whose handler fails. -/
theorem C3_handler_failure_witness :
    QueryWithToolsT streamToolCall "http://localhost:11434" "Get the version of Go" [failingTool] =
      (("", some (QueryError.toolExecution "go_version"
          "exec: \x22go\x22: executable file not found")),
       ⟨[("go_version", [])],
        [([userMsg "Get the version of Go"], [failingTool].map ToolDef.ollamaJsonFormat)]⟩) :=
  C3_handler_failure streamToolCall "http://localhost:11434" "Get the version of Go" [failingTool]
    ⟨"assistant", "", [⟨⟨"go_version", []⟩⟩]⟩ ⟨⟨"go_version", []⟩⟩ [] failingTool
    "" "exec: \x22go\x22: executable file not found"
    (by decide) rfl rfl rfl rfl

/-- **C1**: when the initial reply's first tool call is registered and its
handler succeeds, `QueryWithTools` invokes the handler exactly once, extends
the history by exactly the assistant message that carried the call followed
by a tool-role message carrying the handler's result, re-invokes the
transport on that extended history with no tool schema, and returns the
follow-up reply's trimmed text. -/
theorem C1_tool_round_success (stream : StreamFn) (baseURL userPrompt : String)
    (tools : List ToolDef) (reply followup : message) (tcall : toolCall)
    (rest : List toolCall) (td : ToolDef) (result : String)
    (hinit : baseURL ≠ "")
    (hreply : basicChat (stream [userMsg userPrompt] (tools.map ToolDef.ollamaJsonFormat)) =
      (reply, none))
    (hfirst : reply.toolCalls = tcall :: rest)
    (hlookup : lookupHandler tools tcall.function.name = some td)
    (hhandler : td.handler tcall.function.arguments = (result, none))
    (hfollow : basicChat (stream ([userMsg userPrompt] ++ [reply, toolMsg result]) []) =
      (followup, none)) :
    QueryWithToolsT stream baseURL userPrompt tools =
      ((trimSpace followup.content, none),
       ⟨[(tcall.function.name, tcall.function.arguments)],
        [([userMsg userPrompt], tools.map ToolDef.ollamaJsonFormat),
         ([userMsg userPrompt] ++ [reply, toolMsg result], [])]⟩) := by
  simp only [QueryWithToolsT, chatStream, if_neg hinit, hreply, hfirst, hlookup, hhandler,
    hfollow]

/-- Witness for C1: the spec's `go_version` scenario end to end — handler
invoked once, two messages appended, follow-up call without tools, trimmed
follow-up text returned. -/
theorem C1_tool_round_success_witness :
    QueryWithToolsT streamToolCall "http://localhost:11434" "Get the version of Go"
        [goVersionTool] =
      ((trimSpace "  The Go version is go1.25.7.  ", none),
       ⟨[("go_version", [])],
        [([userMsg "Get the version of Go"], [goVersionTool].map ToolDef.ollamaJsonFormat),
         ([userMsg "Get the version of Go"] ++
            [⟨"assistant", "", [⟨⟨"go_version", []⟩⟩]⟩,
             toolMsg "go version go1.25.7 linux/amd64"], [])]⟩) :=
  C1_tool_round_success streamToolCall "http://localhost:11434" "Get the version of Go"
    [goVersionTool] ⟨"assistant", "", [⟨⟨"go_version", []⟩⟩]⟩
    ⟨"assistant", "  The Go version is go1.25.7.  ", []⟩ ⟨⟨"go_version", []⟩⟩ []
    goVersionTool "go version go1.25.7 linux/amd64"
    (by decide) rfl rfl rfl rfl rfl

/-- **C8**: when the health probe already succeeds, `Initialize` returns
success without spawning and without taking ownership (the process handle
stays nil), and a subsequent `Shutdown` is a no-op that terminates nothing —
a backend process not spawned by the manager is never killed by it. -/
theorem C8_attach_no_ownership (s : OllamaState) (port : Nat) (w : InitWorld)
    (killOk : Bool)
    (hproc : s.ollamaProc = none) (hhealthy : w.alreadyHealthy = true) :
    (Initialize s port w).err = none ∧
    (Initialize s port w).spawned = [] ∧
    (Initialize s port w).state.ollamaProc = none ∧
    Shutdown (Initialize s port w).state killOk =
      ((Initialize s port w).state, [], none) := by
  refine ⟨?_, ?_, ?_, ?_⟩ <;> simp [Initialize, Shutdown, hhealthy, hproc]

/-- Witness for C8: a fresh manager attaching to an already-healthy backend
on port 11434, then shutting down. -/
theorem C8_attach_no_ownership_witness :
    (Initialize ⟨none, ""⟩ 11434 ⟨true, none, false⟩).err = none ∧
    (Initialize ⟨none, ""⟩ 11434 ⟨true, none, false⟩).spawned = [] ∧
    (Initialize ⟨none, ""⟩ 11434 ⟨true, none, false⟩).state.ollamaProc = none ∧
    Shutdown (Initialize ⟨none, ""⟩ 11434 ⟨true, none, false⟩).state true =
      ((Initialize ⟨none, ""⟩ 11434 ⟨true, none, false⟩).state, [], none) :=
  C8_attach_no_ownership ⟨none, ""⟩ 11434 ⟨true, none, false⟩ true rfl rfl

/-- **C9**: `ExecuteGitCommand` always yields a single text result and
signals no error: on success the combined output verbatim, on execution
failure a diagnostic string embedding the underlying failure together with
the command output. -/
theorem C9_git_single_text_result (repoPath : String) (args : List String)
    (runGit : String → List String → ExecResult) :
    ((runGit repoPath args).err = none →
      ExecuteGitCommand repoPath args runGit = (runGit repoPath args).out) ∧
    (∀ e, (runGit repoPath args).err = some e →
      ExecuteGitCommand repoPath args runGit =
        "Error executing command: " ++ e ++ "\nOutput: " ++ (runGit repoPath args).out) := by
  constructor
  · intro h
    simp [ExecuteGitCommand, h]
  · intro e h
    simp [ExecuteGitCommand, h]

/-- Witness for C9: the spec's `log -n 1` scenario against a repository and
against a non-repository path. -/
theorem C9_git_single_text_result_witness :
    ExecuteGitCommand "/repo" ["log", "-n", "1"]
        (fun _ _ => ⟨"commit abc123\n", none⟩) = "commit abc123\n" ∧
    ExecuteGitCommand "/tmp" ["log", "-n", "1"]
        (fun _ _ => ⟨"fatal: not a git repository\n", some "exit status 128"⟩) =
      "Error executing command: " ++ "exit status 128" ++ "\nOutput: " ++
        "fatal: not a git repository\n" :=
  ⟨(C9_git_single_text_result "/repo" ["log", "-n", "1"] _).1 rfl,
   (C9_git_single_text_result "/tmp" ["log", "-n", "1"] _).2 "exit status 128" rfl⟩

/-! Helper lemma for the cloud adapter's argument extraction. -/

theorem stringElems_eq_filterMap (l : List GoAny) :
    stringElems l = l.filterMap GoAny.asString := by
  induction l with
  | nil => rfl
  | cons a rest ih =>
    cases a <;> simp [stringElems, GoAny.asString, List.filterMap_cons, ih]

/-- **C10**: in `AnalyzeWithGit`, for a reply whose first content part is a
function call named `execute_git_command`: a missing or non-list `args`
value yields an error with the git executor never invoked; otherwise the
executor is invoked exactly once with the string elements of the list, in
order, every non-string element silently dropped. -/
theorem C10_git_args_extraction (resp : GenerateContentResponse) (repoPath : String)
    (runGit : String → List String → ExecResult)
    (send2 : String → GenerateContentResponse × Option String)
    (cand : Candidate) (crest : List Candidate) (part : Part) (prest : List Part)
    (funcCall : FunctionCall)
    (hc : resp.candidates = cand :: crest)
    (hp : cand.content.parts = part :: prest)
    (hf : part.functionCall = some funcCall)
    (hn : funcCall.name = "execute_git_command") :
    ((∀ l, funcCall.args.lookup "args" ≠ some (GoAny.list l)) →
      AnalyzeWithGitT resp repoPath runGit send2 =
        (("", some "model failed to provide git arguments"), [])) ∧
    (∀ l, funcCall.args.lookup "args" = some (GoAny.list l) →
      (AnalyzeWithGitT resp repoPath runGit send2).2 = [l.filterMap GoAny.asString]) := by
  constructor
  · intro hnl
    simp only [AnalyzeWithGitT, hc, hp, hf, hn, if_pos]
  · intro l hlk
    simp only [AnalyzeWithGitT, hc, hp, hf, hn, if_pos, hlk]
    rcases h2 : send2 (ExecuteGitCommand repoPath (stringElems l) runGit) with ⟨f, e⟩
    cases e <;> simp [stringElems_eq_filterMap]

/-- Witness for C10: a call whose `args` list mixes strings with a number —
the executor receives exactly the strings, in order. -/
theorem C10_git_args_extraction_witness :
    (AnalyzeWithGitT wGitResp "./" (fun _ _ => ⟨"out", none⟩)
        (fun _ => (⟨[], "final"⟩, none))).2 =
      [[GoAny.str "log", GoAny.num 3, GoAny.str "-n"].filterMap GoAny.asString] :=
  (C10_git_args_extraction wGitResp "./" (fun _ _ => ⟨"out", none⟩)
      (fun _ => (⟨[], "final"⟩, none)) ⟨⟨[wGitPart]⟩⟩ [] wGitPart [] wGitCall
      rfl rfl rfl rfl).2
    [GoAny.str "log", GoAny.num 3, GoAny.str "-n"] rfl

end BridgeKeeper
